import Mathlib

/-!
Shallow embedding of the firmware-manager GTK state tracker
(`src/gtk/src/state.rs`): the entity/component store, the discovery
handlers (`fwupd`, `system76_system`, `thelio_io`), the reveal cache,
the update dispatcher (`State::update`) and the completion handler
(`State::device_updated`).

Modelling conventions:
- `Entity` is a `Nat` (slotmap keys are opaque; no removal path exists, so
  a monotone counter is a faithful model of key allocation).
- The sparse per-entity component maps are modelled as total functions
  `Entity → Option α`, updated pointwise.
- Every outward effect (channel sends, dialog runs, reboot, timer arming,
  stderr logging) is recorded in order in a `List Action` returned next to
  the successor state, so ordering claims are statements about that list.
- GTK widget mutations that the spec's claims observe (progress fraction,
  label text, stack visibility, the revealer's reveal-child flag and cached
  child) are mirrored as fields of `DeviceWidget`; `set_fraction(1.0)` is
  recorded as the percentage 100.
- The source indexes `device_widgets[entity]` (a panic on absence) in
  `reveal` and `update`; the embedding guards those lookups with a match
  whose `none` arm does nothing, and theorems that need the widget assume
  its presence, which holds for every entity created by a discovery handler.
-/

namespace FirmwareManager

/-- Opaque identity of a tracked device (slotmap `DefaultKey`). -/
abbrev Entity := Nat

/-- The fields of `FirmwareInfo` that `state.rs` reads: the current
version and the optional latest version. -/
structure FirmwareInfo where
  current : String
  latest : Option String
  deriving DecidableEq, Repr

/-- The field of a fwupd device descriptor that `state.rs` reads
(`device.needs_reboot()`). -/
structure FwupdDevice where
  needs_reboot : Bool
  deriving DecidableEq, Repr

/-- One fwupd release: version and description, as read by the changelog
generator. -/
structure FwupdRelease where
  version : String
  description : String
  deriving DecidableEq, Repr

/-- A system76 content digest (opaque string). -/
abbrev System76Digest := String

/-- One entry of a system76 changelog: a BIOS version and an optional
description. -/
structure S76Version where
  bios : String
  description : Option String
  deriving DecidableEq, Repr

/-- A system76 changelog: the stored, ordered list of versions. -/
structure System76Changelog where
  versions : List S76Version
  deriving DecidableEq, Repr

/-- The inbound payload of the fwupd discovery handler (`FwupdSignal`).
The `BTreeSet<FwupdRelease>` is modelled as the list produced by its
in-order iteration (ascending by version, most recent last). -/
structure FwupdSignal where
  info : FirmwareInfo
  device : FwupdDevice
  upgradeable : Bool
  releases : List FwupdRelease
  deriving DecidableEq, Repr

/-- Changelog content cached inside a revealer: either a generated list of
(version, description) entries, or the explicit "no changelog available"
placeholder (`generate_widget_none`). -/
inductive ChangelogContent where
  | generated (entries : List (String × String))
  | placeholder
  deriving DecidableEq, Repr

/-- The state of a `gtk::Revealer`: whether the child is currently
revealed, and the lazily generated cached child, if any. -/
structure Revealer where
  reveal_child : Bool
  child : Option ChangelogContent
  deriving DecidableEq, Repr

/-- The per-device widget state that the core reads and writes: the
upgrade-button stack visibility, whether it was switched to the waiting
(progress-bar) view, the displayed progress percentage, the version label,
the changelog revealer, and whether the upgrade-clicked callback was
connected. -/
structure DeviceWidget where
  stack_shown : Bool
  waiting : Bool
  progress_percent : Nat
  label : String
  revealer : Revealer
  upgrade_connected : Bool
  deriving DecidableEq, Repr

/-- A fresh widget as the discovery handlers create it, before any
show/hide or callback registration: revealer hidden and empty, label
showing the device's current version. -/
def DeviceWidget.fresh (current : String) : DeviceWidget :=
  { stack_shown := true
    waiting := false
    progress_percent := 0
    label := current
    revealer := { reveal_child := false, child := none }
    upgrade_connected := false }

/-- A timer payload: the event a one-shot `gtk::timeout_add_seconds`
callback sends when it fires. -/
inductive TimerEvent where
  | hideStack (e : Entity)
  deriving DecidableEq, Repr

/-- Outward effects of the core, recorded in emission order. -/
inductive Action where
  /-- `progress_sender.send(ActivateEvent::Activate(progress))`. -/
  | sendActivate (e : Entity)
  /-- `progress_sender.send(ActivateEvent::Deactivate(progress))`. -/
  | sendDeactivate (e : Entity)
  /-- `sender.send(FirmwareEvent::ThelioIo(entity, digest))`: the direct
  flash request to the background worker. -/
  | thelioFlashRequest (e : Entity) (digest : System76Digest)
  /-- `FwupdDialog { .. }.run()`: the fwupd confirmation dialog. -/
  | openFwupdDialog (e : Entity) (device : FwupdDevice)
      (releases : List FwupdRelease) (latest : String)
      (needs_reboot : Bool) (has_battery : Bool)
  /-- `System76Dialog { .. }.run()`: the system76 confirmation dialog. -/
  | openSystem76Dialog (e : Entity) (digest : System76Digest)
      (changelog : System76Changelog) (latest : String) (has_battery : Bool)
  /-- `ui_sender.send(Event::Ui(UiEvent::Revealed(entity, reveal)))`. -/
  | sendRevealed (e : Entity) (shown : Bool)
  /-- The revealer's changelog child was generated and cached. -/
  | generateContent (e : Entity) (content : ChangelogContent)
  /-- `widget.stack.progress.set_fraction(1.0)`, recorded as percent. -/
  | setProgressFraction (e : Entity) (percent : Nat)
  /-- `widget.label.set_text(latest)`. -/
  | setLabel (e : Entity) (text : String)
  /-- `crate::reboot()`: the fire-and-forget reboot request. -/
  | reboot
  /-- `gtk::timeout_add_seconds(delay, ..)` arming a one-shot timer that
  will send the given event when it fires (`gtk::Continue(false)`). -/
  | armOneShotTimer (delaySeconds : Nat) (fires : TimerEvent)
  /-- `eprintln!(..)`: the local caller-misuse log line. -/
  | logCallerMisuse
  deriving DecidableEq, Repr

/-- Marks the action that identifies which dispatch branch of `update`
fired: the fwupd dialog, the system76 dialog, or the direct thelio flash
request. -/
def Action.isDispatch : Action → Bool
  | Action.openFwupdDialog _ _ _ _ _ _ => true
  | Action.openSystem76Dialog _ _ _ _ _ => true
  | Action.thelioFlashRequest _ _ => true
  | _ => false

/-- The entity registry: slotmap key allocation (monotone counter, no
removal) plus the `assoc_system` tag set (`Entities` in the source). -/
structure Entities where
  next : Nat
  system : Entity → Bool

/-- `Entities::default()`. -/
def Entities.init : Entities := { next := 0, system := fun _ => false }

/-- `entities.create()`: returns the fresh key and the bumped registry. -/
def Entities.create (es : Entities) : Entity × Entities :=
  (es.next, { es with next := es.next + 1 })

/-- `entities.associate_system(entity)`. -/
def Entities.associate_system (es : Entities) (e : Entity) : Entities :=
  { es with system := fun x => if x = e then true else es.system x }

/-- `entities.is_system(entity)`. -/
def Entities.is_system (es : Entities) (e : Entity) : Bool := es.system e

/-- Pointwise insertion into a sparse component map
(`SecondaryMap::insert` / `SparseSecondaryMap::insert`). -/
def mapInsert {α : Type} (m : Entity → Option α) (e : Entity) (v : α) :
    Entity → Option α :=
  fun x => if x = e then some v else m x

/-- The per-entity component maps of `Components` in the source (the GTK
widgets, download progress, latest version, and the three mutually
exclusive backend payload maps). -/
structure Components where
  device_widgets : Entity → Option DeviceWidget
  firmware_download : Entity → Option (Nat × Nat)
  latest : Entity → Option String
  fwupd : Entity → Option (FwupdDevice × List FwupdRelease)
  system76 : Entity → Option (System76Digest × System76Changelog)
  thelio : Entity → Option System76Digest

/-- `Components::default()`: every map empty. -/
def Components.init : Components :=
  { device_widgets := fun _ => none
    firmware_download := fun _ => none
    latest := fun _ => none
    fwupd := fun _ => none
    system76 := fun _ => none
    thelio := fun _ => none }

/-- The mutable state of `State` that the claims observe: components,
entity registry, the battery flag read once at startup, and whether the
main stack was shown (set by `create_device`). -/
structure State where
  components : Components
  entities : Entities
  has_battery : Bool
  main_stack_shown : Bool

/-- The initial state (`State::new` with an empty device list). -/
def State.init (has_battery : Bool) : State :=
  { components := Components.init
    entities := Entities.init
    has_battery := has_battery
    main_stack_shown := false }

/-- Replace the widget stored for an entity. -/
def State.setWidget (s : State) (e : Entity) (w : DeviceWidget) : State :=
  { s with components :=
      { s.components with device_widgets := mapInsert s.components.device_widgets e w } }

/-- `State::fwupd`: the fwupd discovery handler, inlining `create_device`
(fresh entity, run the body, insert the widget, show the main stack).
System devices are tagged; `latest`/`fwupd` components and the upgrade
affordance are populated only when the signal carries a latest version. -/
def State.fwupd (s : State) (signal : FwupdSignal) : State :=
  let (e, es) := s.entities.create
  let es := if signal.device.needs_reboot then es.associate_system e else es
  let w := { DeviceWidget.fresh signal.info.current with stack_shown := false }
  let (comps, w) :=
    match signal.info.latest with
    | some latest =>
      let c := { s.components with
                 latest := mapInsert s.components.latest e latest
                 fwupd := mapInsert s.components.fwupd e (signal.device, signal.releases) }
      if signal.upgradeable then
        (c, { w with stack_shown := true, upgrade_connected := true })
      else (c, w)
    | none => (s.components, w)
  { s with
    entities := es
    components := { comps with device_widgets := mapInsert comps.device_widgets e w }
    main_stack_shown := true }

/-- `State::system76_system`: the system76 system-firmware discovery
handler. The entity is always tagged system; with a latest version the
upgrade affordance is shown only when it differs from the current version,
`latest` is recorded, and the `system76` payload is recorded only when a
digest and changelog were downloaded. -/
def State.system76_system (s : State) (info : FirmwareInfo)
    (downloaded : Option (System76Digest × System76Changelog)) : State :=
  let (e, es) := s.entities.create
  let es := es.associate_system e
  let w := { DeviceWidget.fresh info.current with stack_shown := false }
  let (comps, w) :=
    match info.latest with
    | some latest =>
      let w :=
        if latest ≠ info.current then
          { w with stack_shown := true, upgrade_connected := true }
        else w
      let c := { s.components with latest := mapInsert s.components.latest e latest }
      let c :=
        match downloaded with
        | some data => { c with system76 := mapInsert c.system76 e data }
        | none => c
      (c, w)
    | none => (s.components, w)
  { s with
    entities := es
    components := { comps with device_widgets := mapInsert comps.device_widgets e w }
    main_stack_shown := true }

/-- `State::thelio_io`: the Thelio I/O discovery handler. When both a
digest and a latest version are present, the upgrade callback is
connected and the `latest` and `thelio` components are recorded
unconditionally, while the stack is shown only when the latest version
differs from the current one. -/
def State.thelio_io (s : State) (info : FirmwareInfo)
    (digest : Option System76Digest) : State :=
  let (e, es) := s.entities.create
  let w := DeviceWidget.fresh info.current
  let (comps, w) :=
    match digest, info.latest with
    | some d, some latest =>
      let upgradeable : Bool := decide (info.current ≠ latest)
      let w := { w with upgrade_connected := true, stack_shown := upgradeable }
      let c := { s.components with
                 latest := mapInsert s.components.latest e latest
                 thelio := mapInsert s.components.thelio e d }
      (c, w)
    | _, _ => (s.components, { w with stack_shown := false })
  { s with
    entities := es
    components := { comps with device_widgets := mapInsert comps.device_widgets e w }
    main_stack_shown := true }

/-- The free function `reveal` at the bottom of `state.rs`: a strict
toggle of the revealer, generating and caching the changelog child on the
first reveal only (when no child exists), and sending
`UiEvent::Revealed(entity, reveal)` on every call. `content` is the value
the branch-specific closure would produce; the source calls that closure
only on the cache miss, which the `none` arm mirrors. -/
def revealToggle (e : Entity) (rv : Revealer) (content : ChangelogContent) :
    Revealer × List Action :=
  if rv.reveal_child then
    ({ rv with reveal_child := false }, [Action.sendRevealed e false])
  else
    match rv.child with
    | none =>
      ({ reveal_child := true, child := some content },
       [Action.generateContent e content, Action.sendRevealed e true])
    | some _ => ({ rv with reveal_child := true }, [Action.sendRevealed e true])

/-- The changelog content `State::reveal` would generate for an entity,
selected by which backend payload is present, in the source's check
order: fwupd releases reversed (most recent first), else the system76
changelog in stored order (missing descriptions shown as "N/A"), else the
"no changelog available" placeholder. -/
def contentFor (c : Components) (e : Entity) : ChangelogContent :=
  match c.fwupd e with
  | some (_, releases) =>
    ChangelogContent.generated
      (releases.reverse.map fun r => (r.version, r.description))
  | none =>
    match c.system76 e with
    | some (_, changelog) =>
      ChangelogContent.generated
        (changelog.versions.map fun v => (v.bios, v.description.getD "N/A"))
    | none => ChangelogContent.placeholder

/-- `State::reveal`: look up the entity's widget (the source indexes and
would panic on absence; the embedding guards with a no-op) and toggle its
revealer with the payload-appropriate content. -/
def State.reveal (s : State) (e : Entity) : State × List Action :=
  match s.components.device_widgets e with
  | none => (s, [])
  | some w =>
    let (rv, acts) := revealToggle e w.revealer (contentFor s.components e)
    (s.setWidget e { w with revealer := rv }, acts)

/-- `State::update`: the update dispatcher. Requires `latest`; otherwise
logs the caller misuse and does nothing. With `latest`, checks the fwupd
payload, then the system76 payload, then the thelio payload, in that
order; the first present one fires (fwupd dialog, system76 dialog, or the
direct flash that switches the widget to waiting, activates the progress
bar and sends the worker request). -/
def State.update (s : State) (e : Entity) : State × List Action :=
  match s.components.latest e with
  | none => (s, [Action.logCallerMisuse])
  | some latest =>
    match s.components.device_widgets e with
    | none => (s, [])
    | some w =>
      match s.components.fwupd e with
      | some (device, releases) =>
        (s, [Action.openFwupdDialog e device releases latest
               (s.entities.is_system e) s.has_battery])
      | none =>
        match s.components.system76 e with
        | some (digest, changelog) =>
          (s, [Action.openSystem76Dialog e digest changelog latest s.has_battery])
        | none =>
          match s.components.thelio e with
          | some digest =>
            (s.setWidget e { w with waiting := true },
             [Action.sendActivate e, Action.thelioFlashRequest e digest])
          | none => (s, [])

/-- `State::device_updated`: the completion handler. With a widget
present: set the progress fraction to 1.0 (100%), set the label to the
new version, deactivate the progress bar, reboot if the entity is
system-tagged, then arm a one-second one-shot timer that will send
`UiEvent::HideStack(entity)`. Without a widget, nothing happens. -/
def State.device_updated (s : State) (e : Entity) (latest : String) :
    State × List Action :=
  match s.components.device_widgets e with
  | none => (s, [])
  | some w =>
    (s.setWidget e { w with progress_percent := 100, label := latest },
     [Action.setProgressFraction e 100, Action.setLabel e latest,
      Action.sendDeactivate e]
       ++ (if s.entities.is_system e then [Action.reboot] else [])
       ++ [Action.armOneShotTimer 1 (TimerEvent.hideStack e)])

/-- One inbound event of the core's single-threaded event loop: the three
discovery events, the two UI events, and the worker completion event. -/
inductive Op where
  | fwupdFound (signal : FwupdSignal)
  | system76Found (info : FirmwareInfo)
      (downloaded : Option (System76Digest × System76Changelog))
  | thelioFound (info : FirmwareInfo) (digest : Option System76Digest)
  | revealClicked (e : Entity)
  | updateClicked (e : Entity)
  | deviceUpdated (e : Entity) (latest : String)

/-- Process one event (dropping the recorded outward actions). -/
def step (s : State) (op : Op) : State :=
  match op with
  | Op.fwupdFound signal => s.fwupd signal
  | Op.system76Found info downloaded => s.system76_system info downloaded
  | Op.thelioFound info digest => s.thelio_io info digest
  | Op.revealClicked e => (s.reveal e).1
  | Op.updateClicked e => (s.update e).1
  | Op.deviceUpdated e latest => (s.device_updated e latest).1

/-- Run a sequence of events from a state. -/
def runOps (s : State) (ops : List Op) : State := ops.foldl step s

/-- The entity at a map index has no recorded components yet, as holds for
every not-yet-allocated slotmap key. -/
def freshEntity (c : Components) (e : Entity) : Prop :=
  c.latest e = none ∧ c.fwupd e = none ∧ c.system76 e = none ∧ c.thelio e = none

/-- How many backend payload shapes are recorded for an entity. -/
def payloadCount (c : Components) (e : Entity) : Nat :=
  (if (c.fwupd e).isSome then 1 else 0) +
    (if (c.system76 e).isSome then 1 else 0) +
    (if (c.thelio e).isSome then 1 else 0)

/-- The inductive invariant of the event loop: every entity holds at most
one backend payload shape, and entities at or beyond the allocation
counter have no components at all. -/
def Inv (s : State) : Prop :=
  (∀ e, payloadCount s.components e ≤ 1) ∧
    (∀ e, s.entities.next ≤ e → freshEntity s.components e)

/- Concrete states used to instantiate theorems with hypotheses. -/

/-- A fwupd discovery signal with two releases, the newer one last
(`BTreeSet` iteration order). -/
def exampleFwupdSignal : FwupdSignal :=
  { info := { current := "1.0", latest := some "2.0" }
    device := { needs_reboot := true }
    upgradeable := true
    releases := [{ version := "1.0", description := "first" },
                 { version := "2.0", description := "second" }] }

/-- State after discovering one upgradeable fwupd device. -/
def stateFwupd : State := (State.init false).fwupd exampleFwupdSignal

/-- An example system76 changelog with one version entry. -/
def exampleChangelog : System76Changelog :=
  { versions := [{ bios := "2.0", description := some "fixes" }] }

/-- State after discovering one system76 system device with a downloaded
digest and changelog. -/
def stateS76 : State :=
  (State.init false).system76_system { current := "1.0", latest := some "2.0" }
    (some ("DIGEST", exampleChangelog))

/-- State after discovering a system76 system device that has a latest
version but nothing downloaded yet. -/
def stateS76NoDl : State :=
  (State.init false).system76_system { current := "1.0", latest := some "2.0" } none

/-- State after discovering an upgradeable Thelio I/O board. -/
def stateThelio : State :=
  (State.init false).thelio_io { current := "1.0", latest := some "2.0" } (some "DG")

/-- State after discovering a Thelio I/O board whose latest version equals
its current version. -/
def stateThelioSame : State :=
  (State.init false).thelio_io { current := "1.4", latest := some "1.4" } (some "D")

/-- A hypothetical state whose entity 0 carries both a system76 payload
and a thelio payload (not reachable through the discovery handlers, but
the dispatch-precedence claim quantifies over it). -/
def stateBothPayloads : State :=
  { components :=
      { Components.init with
        device_widgets := mapInsert Components.init.device_widgets 0 (DeviceWidget.fresh "1.0")
        latest := mapInsert Components.init.latest 0 "2.0"
        system76 := mapInsert Components.init.system76 0 ("DIGEST", exampleChangelog)
        thelio := mapInsert Components.init.thelio 0 "DG" }
    entities := { next := 1, system := fun _ => false }
    has_battery := false
    main_stack_shown := true }

/-- C3: with no `latest` component, `update` leaves the state unchanged
and only logs the caller misuse locally: no dialog, no worker request. -/
theorem update_without_latest_is_noop (s : State) (e : Entity)
    (h : s.components.latest e = none) :
    State.update s e = (s, [Action.logCallerMisuse]) := by
  simp [State.update, h]

theorem update_without_latest_is_noop_witness :
    State.update (State.init false) 0 = (State.init false, [Action.logCallerMisuse]) :=
  update_without_latest_is_noop (State.init false) 0 rfl

/-- C9: with a `latest` component and a widget but no backend payload of
any shape, `update` silently does nothing: the state is unchanged and no
action at all is emitted — no dialog, no worker request, and, unlike the
missing-`latest` case, no local usage log either. -/
theorem update_latest_without_payload_is_silent (s : State) (e : Entity)
    (l : String) (w : DeviceWidget)
    (hl : s.components.latest e = some l)
    (hw : s.components.device_widgets e = some w)
    (hf : s.components.fwupd e = none)
    (hs : s.components.system76 e = none)
    (ht : s.components.thelio e = none) :
    State.update s e = (s, []) := by
  simp [State.update, hl, hw, hf, hs, ht]

theorem update_latest_without_payload_is_silent_witness :
    State.update stateS76NoDl 0 = (stateS76NoDl, []) :=
  update_latest_without_payload_is_silent stateS76NoDl 0 "2.0"
    { DeviceWidget.fresh "1.0" with stack_shown := true, upgrade_connected := true }
    rfl rfl rfl rfl rfl

/-- C10: with no device widget, `device_updated` is a complete no-op: the
state is unchanged and nothing is emitted — no progress or label update,
no deactivate or hide event, and no reboot even for a system entity. -/
theorem device_updated_without_widget_is_noop (s : State) (e : Entity)
    (l : String) (h : s.components.device_widgets e = none) :
    State.device_updated s e l = (s, []) := by
  simp [State.device_updated, h]

theorem device_updated_without_widget_is_noop_witness :
    State.device_updated (State.init false) 0 "2.0" = (State.init false, []) :=
  device_updated_without_widget_is_noop (State.init false) 0 "2.0" rfl

/-- C5: with a widget present, `device_updated` emits, in order, the
progress-to-100% update, the label update and the progress deactivation,
then the reboot exactly when the entity is system-tagged, then the arming
of the one-second one-shot timer carrying the `HideStack` event — so the
display updates all precede any reboot or hide, the reboot fires iff the
entity is system-tagged, and the hide event exists only as the payload of
exactly one one-second timer, never as a direct emission. -/
theorem device_updated_ordering (s : State) (e : Entity) (l : String)
    (w : DeviceWidget) (hw : s.components.device_widgets e = some w) :
    (State.device_updated s e l).2 =
        [Action.setProgressFraction e 100, Action.setLabel e l,
         Action.sendDeactivate e]
          ++ (if s.entities.is_system e then [Action.reboot] else [])
          ++ [Action.armOneShotTimer 1 (TimerEvent.hideStack e)] ∧
      (Action.reboot ∈ (State.device_updated s e l).2 ↔
        s.entities.is_system e = true) ∧
      (∀ d t, Action.armOneShotTimer d t ∈ (State.device_updated s e l).2 →
        d = 1 ∧ t = TimerEvent.hideStack e) ∧
      (State.device_updated s e l).1 =
        s.setWidget e { w with progress_percent := 100, label := l } := by
  refine ⟨?_, ?_, ?_, ?_⟩
  · simp [State.device_updated, hw]
  · cases hsys : s.entities.is_system e <;> simp [State.device_updated, hw, hsys]
  · intro d t
    cases hsys : s.entities.is_system e <;>
      simp [State.device_updated, hw, hsys]
  · simp [State.device_updated, hw]

theorem device_updated_ordering_witness :
    (State.device_updated stateS76 0 "2.0").2 =
        [Action.setProgressFraction 0 100, Action.setLabel 0 "2.0",
         Action.sendDeactivate 0, Action.reboot,
         Action.armOneShotTimer 1 (TimerEvent.hideStack 0)] := by
  have h := device_updated_ordering stateS76 0 "2.0"
    { DeviceWidget.fresh "1.0" with stack_shown := true, upgrade_connected := true }
    rfl
  rw [h.1]
  rfl

/-- C2: `update` checks payloads in the fixed order fwupd, then system76,
then thelio: a fwupd payload always opens the fwupd dialog; with no fwupd
payload, a system76 payload always opens the system76 dialog (whatever
the thelio map holds); only with both absent does a thelio payload take
the direct-flash branch; every call fires at most one dispatch branch;
and an entity holding a system76 payload never triggers the direct
flash. -/
theorem update_dispatch_precedence (s : State) (e : Entity) :
    (∀ l w dev rels, s.components.latest e = some l →
        s.components.device_widgets e = some w →
        s.components.fwupd e = some (dev, rels) →
        State.update s e =
          (s, [Action.openFwupdDialog e dev rels l
                 (s.entities.is_system e) s.has_battery])) ∧
      (∀ l w dg cl, s.components.latest e = some l →
        s.components.device_widgets e = some w →
        s.components.fwupd e = none →
        s.components.system76 e = some (dg, cl) →
        State.update s e =
          (s, [Action.openSystem76Dialog e dg cl l s.has_battery])) ∧
      (∀ l w dg, s.components.latest e = some l →
        s.components.device_widgets e = some w →
        s.components.fwupd e = none →
        s.components.system76 e = none →
        s.components.thelio e = some dg →
        State.update s e =
          (s.setWidget e { w with waiting := true },
           [Action.sendActivate e, Action.thelioFlashRequest e dg])) ∧
      ((State.update s e).2.countP Action.isDispatch ≤ 1) ∧
      (∀ dg cl d, s.components.system76 e = some (dg, cl) →
        Action.thelioFlashRequest e d ∉ (State.update s e).2) := by
  refine ⟨?_, ?_, ?_, ?_, ?_⟩
  · intro l w dev rels hl hw hf
    simp [State.update, hl, hw, hf]
  · intro l w dg cl hl hw hf hs
    simp [State.update, hl, hw, hf, hs]
  · intro l w dg hl hw hf hs ht
    simp [State.update, hl, hw, hf, hs, ht]
  · unfold State.update
    split
    · simp [Action.isDispatch]
    · split
      · simp
      · split
        · simp [Action.isDispatch]
        · split
          · simp [Action.isDispatch]
          · split
            · simp [Action.isDispatch]
            · simp
  · intro dg cl d hs
    unfold State.update
    split
    · simp
    · split
      · simp
      · split
        · simp
        · split
          · simp
          · simp_all

theorem update_dispatch_precedence_witness :
    State.update stateFwupd 0 =
        (stateFwupd,
         [Action.openFwupdDialog 0 { needs_reboot := true }
            exampleFwupdSignal.releases "2.0" true false]) ∧
      State.update stateBothPayloads 0 =
        (stateBothPayloads,
         [Action.openSystem76Dialog 0 "DIGEST" exampleChangelog "2.0" false]) ∧
      State.update stateThelio 0 =
        (stateThelio.setWidget 0
           { DeviceWidget.fresh "1.0" with
             upgrade_connected := true, stack_shown := true, waiting := true },
         [Action.sendActivate 0, Action.thelioFlashRequest 0 "DG"]) := by
  refine ⟨?_, ?_, ?_⟩
  · exact (update_dispatch_precedence stateFwupd 0).1 "2.0"
      { DeviceWidget.fresh "1.0" with stack_shown := true, upgrade_connected := true }
      { needs_reboot := true } exampleFwupdSignal.releases rfl rfl rfl
  · exact (update_dispatch_precedence stateBothPayloads 0).2.1 "2.0"
      (DeviceWidget.fresh "1.0") "DIGEST" exampleChangelog rfl rfl rfl rfl
  · exact (update_dispatch_precedence stateThelio 0).2.2.1 "2.0"
      { DeviceWidget.fresh "1.0" with upgrade_connected := true, stack_shown := true }
      "DG" rfl rfl rfl rfl rfl

/-- C4: starting from a hidden revealer with an empty content cache, the
first `reveal` generates the content once, caches it, ends shown and
reports `Revealed(e, true)`; the immediately following `reveal` ends
hidden, reports `Revealed(e, false)`, generates nothing, and the cached
content is the very same value as after the first call. -/
theorem reveal_twice_toggles_and_memoizes (s : State) (e : Entity)
    (w : DeviceWidget) (hw : s.components.device_widgets e = some w)
    (hidden : w.revealer.reveal_child = false)
    (empty : w.revealer.child = none) :
    (s.reveal e).2 =
        [Action.generateContent e (contentFor s.components e),
         Action.sendRevealed e true] ∧
      ((s.reveal e).1.components.device_widgets e).map (fun x => x.revealer) =
        some { reveal_child := true, child := some (contentFor s.components e) } ∧
      ((s.reveal e).1.reveal e).2 = [Action.sendRevealed e false] ∧
      (((s.reveal e).1.reveal e).1.components.device_widgets e).map
          (fun x => x.revealer) =
        some { reveal_child := false, child := some (contentFor s.components e) } := by
  refine ⟨?_, ?_, ?_, ?_⟩ <;>
    simp [State.reveal, revealToggle, hw, hidden, empty, State.setWidget, mapInsert]

theorem reveal_twice_toggles_and_memoizes_witness :
    (stateThelio.reveal 0).2 =
        [Action.generateContent 0 ChangelogContent.placeholder,
         Action.sendRevealed 0 true] ∧
      ((stateThelio.reveal 0).1.reveal 0).2 = [Action.sendRevealed 0 false] := by
  have h := reveal_twice_toggles_and_memoizes stateThelio 0
    { DeviceWidget.fresh "1.0" with upgrade_connected := true, stack_shown := true }
    rfl rfl rfl
  exact ⟨h.1, h.2.2.1⟩

/-- C7: from a hidden, empty revealer, `reveal` generates content by the
payload-selected strategy: a fwupd payload yields the releases reversed
into most-recent-first (version, description) entries; otherwise a
system76 payload yields its changelog versions in stored order with
absent descriptions rendered "N/A"; with neither payload the explicit
no-changelog placeholder is generated. -/
theorem reveal_selects_content_strategy (s : State) (e : Entity)
    (w : DeviceWidget) (hw : s.components.device_widgets e = some w)
    (hidden : w.revealer.reveal_child = false)
    (empty : w.revealer.child = none) :
    (∀ dev rels, s.components.fwupd e = some (dev, rels) →
        (s.reveal e).2 =
          [Action.generateContent e (ChangelogContent.generated
             (rels.reverse.map fun r => (r.version, r.description))),
           Action.sendRevealed e true]) ∧
      (∀ dg cl, s.components.fwupd e = none →
        s.components.system76 e = some (dg, cl) →
        (s.reveal e).2 =
          [Action.generateContent e (ChangelogContent.generated
             (cl.versions.map fun v => (v.bios, v.description.getD "N/A"))),
           Action.sendRevealed e true]) ∧
      (s.components.fwupd e = none → s.components.system76 e = none →
        (s.reveal e).2 =
          [Action.generateContent e ChangelogContent.placeholder,
           Action.sendRevealed e true]) := by
  refine ⟨?_, ?_, ?_⟩
  · intro dev rels hf
    simp [State.reveal, revealToggle, contentFor, hw, hidden, empty, hf]
  · intro dg cl hf hs
    simp [State.reveal, revealToggle, contentFor, hw, hidden, empty, hf, hs]
  · intro hf hs
    simp [State.reveal, revealToggle, contentFor, hw, hidden, empty, hf, hs]

theorem reveal_selects_content_strategy_witness :
    (stateFwupd.reveal 0).2 =
        [Action.generateContent 0 (ChangelogContent.generated
           [("2.0", "second"), ("1.0", "first")]),
         Action.sendRevealed 0 true] ∧
      (stateS76.reveal 0).2 =
        [Action.generateContent 0 (ChangelogContent.generated
           [("2.0", "fixes")]),
         Action.sendRevealed 0 true] ∧
      (stateThelio.reveal 0).2 =
        [Action.generateContent 0 ChangelogContent.placeholder,
         Action.sendRevealed 0 true] := by
  refine ⟨?_, ?_, ?_⟩
  · exact (reveal_selects_content_strategy stateFwupd 0
      { DeviceWidget.fresh "1.0" with stack_shown := true, upgrade_connected := true }
      rfl rfl rfl).1 { needs_reboot := true } exampleFwupdSignal.releases rfl
  · exact (reveal_selects_content_strategy stateS76 0
      { DeviceWidget.fresh "1.0" with stack_shown := true, upgrade_connected := true }
      rfl rfl rfl).2.1 "DIGEST" exampleChangelog rfl rfl
  · exact (reveal_selects_content_strategy stateThelio 0
      { DeviceWidget.fresh "1.0" with upgrade_connected := true, stack_shown := true }
      rfl rfl rfl).2.2 rfl rfl

/-- C6: when the inbound discovery payload carries no latest version, each
of the three discovery handlers creates the entity with no `latest`
component and no backend payload of any shape, and its widget is present
(displayed) with the upgrade stack hidden and no upgrade callback
connected. -/
theorem discovery_without_latest_shows_not_upgradeable (s : State)
    (cur : String) (h : freshEntity s.components s.entities.next) :
    (∀ (dev : FwupdDevice) (upg : Bool) (rels : List FwupdRelease),
        let s1 := s.fwupd
          { info := { current := cur, latest := none }
            device := dev, upgradeable := upg, releases := rels }
        s1.components.latest s.entities.next = none ∧
          s1.components.fwupd s.entities.next = none ∧
          s1.components.system76 s.entities.next = none ∧
          s1.components.thelio s.entities.next = none ∧
          s1.components.device_widgets s.entities.next =
            some { DeviceWidget.fresh cur with stack_shown := false }) ∧
      (∀ dl,
        let s1 := s.system76_system { current := cur, latest := none } dl
        s1.components.latest s.entities.next = none ∧
          s1.components.fwupd s.entities.next = none ∧
          s1.components.system76 s.entities.next = none ∧
          s1.components.thelio s.entities.next = none ∧
          s1.components.device_widgets s.entities.next =
            some { DeviceWidget.fresh cur with stack_shown := false }) ∧
      (∀ dg,
        let s1 := s.thelio_io { current := cur, latest := none } dg
        s1.components.latest s.entities.next = none ∧
          s1.components.fwupd s.entities.next = none ∧
          s1.components.system76 s.entities.next = none ∧
          s1.components.thelio s.entities.next = none ∧
          s1.components.device_widgets s.entities.next =
            some { DeviceWidget.fresh cur with stack_shown := false }) := by
  obtain ⟨h1, h2, h3, h4⟩ := h
  refine ⟨?_, ?_, ?_⟩
  · intro dev upg rels
    refine ⟨h1, h2, h3, h4, ?_⟩
    show mapInsert s.components.device_widgets s.entities.next
        { DeviceWidget.fresh cur with stack_shown := false } s.entities.next = _
    simp [mapInsert]
  · intro dl
    refine ⟨h1, h2, h3, h4, ?_⟩
    show mapInsert s.components.device_widgets s.entities.next
        { DeviceWidget.fresh cur with stack_shown := false } s.entities.next = _
    simp [mapInsert]
  · intro dg
    refine ⟨?_, ?_, ?_, ?_, ?_⟩
    · cases dg <;> exact h1
    · cases dg <;> exact h2
    · cases dg <;> exact h3
    · cases dg <;> exact h4
    · cases dg <;>
        (show mapInsert s.components.device_widgets s.entities.next
            { DeviceWidget.fresh cur with stack_shown := false } s.entities.next = _
         simp [mapInsert])

theorem discovery_without_latest_witness :
    ((State.init false).thelio_io { current := "1.0", latest := none }
        (some "D")).components.thelio 0 = none ∧
      ((State.init false).thelio_io { current := "1.0", latest := none }
        (some "D")).components.device_widgets 0 =
        some { DeviceWidget.fresh "1.0" with stack_shown := false } ∧
      ((State.init false).fwupd
        { info := { current := "1.0", latest := none }
          device := { needs_reboot := true }, upgradeable := true
          releases := [] }).components.latest 0 = none ∧
      ((State.init false).system76_system { current := "1.0", latest := none }
        (some ("DIGEST", exampleChangelog))).components.system76 0 = none := by
  have h := discovery_without_latest_shows_not_upgradeable (State.init false)
    "1.0" ⟨rfl, rfl, rfl, rfl⟩
  exact ⟨(h.2.2 (some "D")).2.2.2.1, (h.2.2 (some "D")).2.2.2.2,
    (h.1 { needs_reboot := true } true []).1,
    (h.2.1 (some ("DIGEST", exampleChangelog))).2.2.1⟩

/-- C1 counterexample: a thelio device discovered with digest "D" and
latest "1.4" equal to its current "1.4" records `latest` and the digest
anyway, so although the upgrade stack is hidden, `update` on it is not a
no-op: the direct flash request to the worker is among its emissions. -/
theorem thelio_same_version_update_not_noop :
    stateThelioSame.components.latest 0 = some "1.4" ∧
      (stateThelioSame.components.device_widgets 0).map
        (fun w => w.stack_shown) = some false ∧
      Action.thelioFlashRequest 0 "D" ∈ (State.update stateThelioSame 0).2 := by
  refine ⟨rfl, rfl, ?_⟩
  have h : (State.update stateThelioSame 0).2 =
      [Action.sendActivate 0, Action.thelioFlashRequest 0 "D"] := rfl
  rw [h]
  simp

/-- C1 (amended): discovering a thelio device with a digest whose latest
version equals its current version creates an entity whose upgrade stack
is hidden (not upgradeable) though the upgrade callback is connected, yet
the `latest` and `thelio` components are still recorded; `update` on that
entity (its fwupd and system76 maps empty) is therefore not a no-op: it
opens no dialog but activates the progress affordance and emits the
direct ThelioIo flash request to the worker. -/
theorem thelio_same_version_update_flashes (s : State) (cur dg : String)
    (h : freshEntity s.components s.entities.next) :
    let s1 := s.thelio_io { current := cur, latest := some cur } (some dg)
    let e := s.entities.next
    s1.components.device_widgets e =
        some { DeviceWidget.fresh cur with
               upgrade_connected := true, stack_shown := false } ∧
      s1.components.latest e = some cur ∧
      s1.components.thelio e = some dg ∧
      (s1.update e).2 = [Action.sendActivate e, Action.thelioFlashRequest e dg] := by
  obtain ⟨h1, h2, h3, h4⟩ := h
  intro s1 e
  have hw : s1.components.device_widgets e =
      some { DeviceWidget.fresh cur with
             upgrade_connected := true, stack_shown := false } := by
    show mapInsert s.components.device_widgets e _ e = _
    simp [mapInsert, DeviceWidget.fresh]
  have hl : s1.components.latest e = some cur := by
    show mapInsert s.components.latest e cur e = _
    simp [mapInsert]
  have ht : s1.components.thelio e = some dg := by
    show mapInsert s.components.thelio e dg e = _
    simp [mapInsert]
  have hf : s1.components.fwupd e = none := h2
  have hs : s1.components.system76 e = none := h3
  refine ⟨hw, hl, ht, ?_⟩
  simp [State.update, hl, hw, hf, hs, ht]

theorem thelio_same_version_update_flashes_witness :
    stateThelioSame.components.latest 0 = some "1.4" ∧
      stateThelioSame.components.thelio 0 = some "D" ∧
      (stateThelioSame.update 0).2 =
        [Action.sendActivate 0, Action.thelioFlashRequest 0 "D"] := by
  have h := thelio_same_version_update_flashes (State.init false) "1.4" "D"
    ⟨rfl, rfl, rfl, rfl⟩
  exact ⟨h.2.1, h.2.2.1, h.2.2.2⟩

/- Characterization of each operation's effect on the allocation counter,
the `latest` map and the three payload maps, used for the reachable-state
invariant. -/

theorem fwupd_components_char (s : State) (sig : FwupdSignal) :
    (s.fwupd sig).entities.next = s.entities.next + 1 ∧
      (s.fwupd sig).components.latest =
        (match sig.info.latest with
         | some l => mapInsert s.components.latest s.entities.next l
         | none => s.components.latest) ∧
      (s.fwupd sig).components.fwupd =
        (match sig.info.latest with
         | some _ =>
           mapInsert s.components.fwupd s.entities.next (sig.device, sig.releases)
         | none => s.components.fwupd) ∧
      (s.fwupd sig).components.system76 = s.components.system76 ∧
      (s.fwupd sig).components.thelio = s.components.thelio := by
  unfold State.fwupd Entities.create
  cases hl : sig.info.latest <;> cases hu : sig.upgradeable <;>
    cases hr : sig.device.needs_reboot <;> exact ⟨rfl, rfl, rfl, rfl, rfl⟩

theorem system76_components_char (s : State) (info : FirmwareInfo)
    (dl : Option (System76Digest × System76Changelog)) :
    (s.system76_system info dl).entities.next = s.entities.next + 1 ∧
      (s.system76_system info dl).components.latest =
        (match info.latest with
         | some l => mapInsert s.components.latest s.entities.next l
         | none => s.components.latest) ∧
      (s.system76_system info dl).components.fwupd = s.components.fwupd ∧
      (s.system76_system info dl).components.system76 =
        (match info.latest, dl with
         | some _, some data => mapInsert s.components.system76 s.entities.next data
         | _, _ => s.components.system76) ∧
      (s.system76_system info dl).components.thelio = s.components.thelio := by
  unfold State.system76_system Entities.create
  cases hl : info.latest <;> cases hd : dl <;> exact ⟨rfl, rfl, rfl, rfl, rfl⟩

theorem thelio_components_char (s : State) (info : FirmwareInfo)
    (dg : Option System76Digest) :
    (s.thelio_io info dg).entities.next = s.entities.next + 1 ∧
      (s.thelio_io info dg).components.latest =
        (match dg, info.latest with
         | some _, some l => mapInsert s.components.latest s.entities.next l
         | _, _ => s.components.latest) ∧
      (s.thelio_io info dg).components.fwupd = s.components.fwupd ∧
      (s.thelio_io info dg).components.system76 = s.components.system76 ∧
      (s.thelio_io info dg).components.thelio =
        (match dg, info.latest with
         | some d, some _ => mapInsert s.components.thelio s.entities.next d
         | _, _ => s.components.thelio) := by
  unfold State.thelio_io Entities.create
  cases hd : dg <;> cases hl : info.latest <;> exact ⟨rfl, rfl, rfl, rfl, rfl⟩

theorem reveal_fst_char (s : State) (e : Entity) :
    (s.reveal e).1 = s ∨ ∃ x w, (s.reveal e).1 = s.setWidget x w := by
  unfold State.reveal
  cases hw : s.components.device_widgets e with
  | none => exact Or.inl rfl
  | some w =>
    rcases hrt : revealToggle e w.revealer (contentFor s.components e) with ⟨rv, acts⟩
    simp only [hrt]
    exact Or.inr ⟨e, _, rfl⟩

theorem update_fst_char (s : State) (e : Entity) :
    (s.update e).1 = s ∨ ∃ x w, (s.update e).1 = s.setWidget x w := by
  unfold State.update
  split
  · exact Or.inl rfl
  · split
    · exact Or.inl rfl
    · split
      · exact Or.inl rfl
      · split
        · exact Or.inl rfl
        · split
          · exact Or.inr ⟨e, _, rfl⟩
          · exact Or.inl rfl

theorem device_updated_fst_char (s : State) (e : Entity) (l : String) :
    (s.device_updated e l).1 = s ∨
      ∃ x w, (s.device_updated e l).1 = s.setWidget x w := by
  unfold State.device_updated
  split
  · exact Or.inl rfl
  · exact Or.inr ⟨e, _, rfl⟩

theorem inv_setWidget (s : State) (e : Entity) (w : DeviceWidget)
    (h : Inv s) : Inv (s.setWidget e w) := by
  obtain ⟨h1, h2⟩ := h
  exact ⟨fun x => h1 x, fun x hx => h2 x hx⟩

theorem inv_init (b : Bool) : Inv (State.init b) :=
  ⟨fun _ => Nat.zero_le 1, fun _ _ => ⟨rfl, rfl, rfl, rfl⟩⟩

theorem inv_step (s : State) (op : Op) (h : Inv s) : Inv (step s op) := by
  obtain ⟨hmax, hfresh⟩ := h
  cases op with
  | fwupdFound sig =>
    obtain ⟨cn, cl, cf, cs, ct⟩ := fwupd_components_char s sig
    show Inv (s.fwupd sig)
    constructor
    · intro x
      unfold payloadCount
      rw [cf, cs, ct]
      by_cases hx : x = s.entities.next
      · subst hx
        obtain ⟨f1, f2, f3, f4⟩ := hfresh s.entities.next (le_refl _)
        cases hl : sig.info.latest <;>
          simp [mapInsert, f2, f3, f4]
      · cases hl : sig.info.latest <;>
          simp only [mapInsert, if_neg hx] <;> exact hmax x
    · intro x hx
      rw [cn] at hx
      have hx' : s.entities.next ≤ x := le_of_lt (Nat.lt_of_succ_le hx)
      have hne : x ≠ s.entities.next := Nat.ne_of_gt (Nat.lt_of_succ_le hx)
      obtain ⟨f1, f2, f3, f4⟩ := hfresh x hx'
      refine ⟨?_, ?_, ?_, ?_⟩
      · rw [cl]; cases hl : sig.info.latest <;>
          simp only [mapInsert, if_neg hne] <;> assumption
      · rw [cf]; cases hl : sig.info.latest <;>
          simp only [mapInsert, if_neg hne] <;> assumption
      · rw [cs]; exact f3
      · rw [ct]; exact f4
  | system76Found info dl =>
    obtain ⟨cn, cl, cf, cs, ct⟩ := system76_components_char s info dl
    show Inv (s.system76_system info dl)
    constructor
    · intro x
      unfold payloadCount
      rw [cf, cs, ct]
      by_cases hx : x = s.entities.next
      · subst hx
        obtain ⟨f1, f2, f3, f4⟩ := hfresh s.entities.next (le_refl _)
        cases hl : info.latest <;> cases hd : dl <;>
          simp [mapInsert, f2, f3, f4]
      · cases hl : info.latest <;> cases hd : dl <;>
          simp only [mapInsert, if_neg hx] <;> exact hmax x
    · intro x hx
      rw [cn] at hx
      have hx' : s.entities.next ≤ x := le_of_lt (Nat.lt_of_succ_le hx)
      have hne : x ≠ s.entities.next := Nat.ne_of_gt (Nat.lt_of_succ_le hx)
      obtain ⟨f1, f2, f3, f4⟩ := hfresh x hx'
      refine ⟨?_, ?_, ?_, ?_⟩
      · rw [cl]; cases hl : info.latest <;>
          simp only [mapInsert, if_neg hne] <;> assumption
      · rw [cf]; exact f2
      · rw [cs]; cases hl : info.latest <;> cases hd : dl <;>
          simp only [mapInsert, if_neg hne] <;> assumption
      · rw [ct]; exact f4
  | thelioFound info dg =>
    obtain ⟨cn, cl, cf, cs, ct⟩ := thelio_components_char s info dg
    show Inv (s.thelio_io info dg)
    constructor
    · intro x
      unfold payloadCount
      rw [cf, cs, ct]
      by_cases hx : x = s.entities.next
      · subst hx
        obtain ⟨f1, f2, f3, f4⟩ := hfresh s.entities.next (le_refl _)
        cases hd : dg <;> cases hl : info.latest <;>
          simp [mapInsert, f2, f3, f4]
      · cases hd : dg <;> cases hl : info.latest <;>
          simp only [mapInsert, if_neg hx] <;> exact hmax x
    · intro x hx
      rw [cn] at hx
      have hx' : s.entities.next ≤ x := le_of_lt (Nat.lt_of_succ_le hx)
      have hne : x ≠ s.entities.next := Nat.ne_of_gt (Nat.lt_of_succ_le hx)
      obtain ⟨f1, f2, f3, f4⟩ := hfresh x hx'
      refine ⟨?_, ?_, ?_, ?_⟩
      · rw [cl]; cases hd : dg <;> cases hl : info.latest <;>
          simp only [mapInsert, if_neg hne] <;> assumption
      · rw [cf]; exact f2
      · rw [cs]; exact f3
      · rw [ct]; cases hd : dg <;> cases hl : info.latest <;>
          simp only [mapInsert, if_neg hne] <;> assumption
  | revealClicked e =>
    rcases reveal_fst_char s e with heq | ⟨x, w, heq⟩
    · show Inv (s.reveal e).1
      rw [heq]; exact ⟨hmax, hfresh⟩
    · show Inv (s.reveal e).1
      rw [heq]; exact inv_setWidget s x w ⟨hmax, hfresh⟩
  | updateClicked e =>
    rcases update_fst_char s e with heq | ⟨x, w, heq⟩
    · show Inv (s.update e).1
      rw [heq]; exact ⟨hmax, hfresh⟩
    · show Inv (s.update e).1
      rw [heq]; exact inv_setWidget s x w ⟨hmax, hfresh⟩
  | deviceUpdated e l =>
    rcases device_updated_fst_char s e l with heq | ⟨x, w, heq⟩
    · show Inv (s.device_updated e l).1
      rw [heq]; exact ⟨hmax, hfresh⟩
    · show Inv (s.device_updated e l).1
      rw [heq]; exact inv_setWidget s x w ⟨hmax, hfresh⟩

theorem inv_runOps (ops : List Op) (s : State) (h : Inv s) :
    Inv (runOps s ops) := by
  induction ops generalizing s with
  | nil => exact h
  | cons op rest ih => exact ih (step s op) (inv_step s op h)

/-- C8: in every state reachable from the initial state by any sequence
of discovery, reveal, update and completion events, every entity holds at
most one backend payload shape: at most one of the fwupd, system76 and
thelio maps has an entry for it. -/
theorem at_most_one_payload_reachable (b : Bool) (ops : List Op) (e : Entity) :
    payloadCount (runOps (State.init b) ops).components e ≤ 1 :=
  (inv_runOps ops (State.init b) (inv_init b)).1 e

end FirmwareManager
